import Mathlib

/-!
Shallow embedding of the `tlayuda` derive implementation (src/lib.rs).

The crate is a procedural derive macro.  Two layers are modelled:

* the macro-time layer: `get_fields` (schema extraction from the struct
  description) and `generate_output_tokens` (per-field classification and
  default-generator selection), translated from `src/lib.rs` lines 97-211;
* the runtime layer: the behaviour of the *generated* builder type
  (`index` counter, `take_index`, `with_index`, `build`, `build_vec`,
  per-field setters), translated from the quoted output of `entry_point`
  (`src/lib.rs` lines 41-85) together with the semantics of the default
  generator closures (lines 164-179).

`usize` is modelled by `Nat`; the explicit truncating cast `i as u32` in
the character generator is modelled exactly as `i % 2^32`.  (Overflow of
the `usize` counter itself on `index + 1` would panic in debug builds and
is outside the model.)
-/

namespace Tlayuda

/-! ### Macro-time data: syn paths, types, attributes -/

/-- One segment of a `syn` path: its identifier and whether it carries
generic arguments.  (`syn::PathSegment`.) -/
structure RsSegment where
  ident : String
  hasArgs : Bool
deriving DecidableEq, Repr

/-- A `syn::Path`.  A parsed path always has at least one segment, so the
segments are stored as `head :: tail`. -/
structure RsPath where
  leadingColon : Bool
  head : RsSegment
  tail : List RsSegment
deriving DecidableEq, Repr

/-- `syn::Path::get_ident`: `Some` exactly when there is no leading colon
and a single segment without generic arguments. -/
def RsPath.get_ident (p : RsPath) : Option String :=
  if !p.leadingColon && p.tail.isEmpty && !p.head.hasArgs then some p.head.ident
  else none

/-- The last segment of a path (`path.segments.last().unwrap()`; total here
because the embedded path is nonempty by construction). -/
def RsPath.lastSeg (p : RsPath) : RsSegment :=
  p.tail.getLastD p.head

/-- `syn::Path::is_ident`. -/
def RsPath.is_ident (p : RsPath) (s : String) : Bool :=
  match p.get_ident with
  | some id => id == s
  | none => false

/-- The shapes of `syn::Type` relevant here: a path type, or any of the
non-path shapes (tuple, reference, slice/array), which the source's
`match` sends to `todo!`. -/
inductive RsType where
  | path (p : RsPath)
  | tuple (arity : Nat)
  | reference (inner : RsType)
  | slice (inner : RsType)
deriving DecidableEq, Repr

/-- Result of `Attribute::parse_meta` that matters here (`syn::Meta`). -/
inductive RsMeta where
  | metaPath (p : RsPath)
  | metaList (p : RsPath)
  | metaNameValue (p : RsPath)
deriving DecidableEq, Repr

/-- A raw attribute: either its meta parses, or parsing fails. -/
inductive RsAttr where
  | parsed (m : RsMeta)
  | unparseable
deriving DecidableEq, Repr

/-- `Attribute::parse_meta` as an `Option`. -/
def parse_meta : RsAttr → Option RsMeta
  | .parsed m => some m
  | .unparseable => none

/-- A raw struct field as seen by the macro: optional identifier (tuple
structs have none), declared type, attached attributes. -/
structure RawField where
  ident : Option String
  ty : RsType
  attrs : List RsAttr
deriving DecidableEq, Repr

/-- `FieldInfo` from src/lib.rs lines 90-95. -/
structure FieldInfo where
  identifier : String
  field_type : RsType
  is_ignored : Bool
deriving DecidableEq, Repr

/-- The `is_ignored` computation of `get_fields` (src/lib.rs lines
105-114): an attribute counts iff its meta parses as a bare path that is
the single identifier `tlayuda_ignore`. -/
def isIgnoreAttr (a : RsAttr) : Bool :=
  match parse_meta a with
  | some m =>
    match m with
    | .metaPath p => p.is_ident "tlayuda_ignore"
    | _ => false
  | none => false

/-- `get_fields` (src/lib.rs lines 97-117): keep only named fields, in
order; record identifier, type, and the ignore flag. -/
def get_fields (fs : List RawField) : List FieldInfo :=
  (fs.filter (fun x => x.ident.isSome)).map fun x =>
    ⟨x.ident.getD "", x.ty, x.attrs.any isIgnoreAttr⟩

/-! ### Macro-time generator selection -/

/-- The default-generator choice for a non-ignored field
(src/lib.rs lines 164-179).  `numG`/`nestedG` record the token stream
(`identity.1`) interpolated into the generated cast / builder call. -/
inductive GenChoice where
  | text
  | osText
  | chG
  | blG
  | numG (castTokens : RsPath)
  | nestedG (callee : RsPath)
deriving DecidableEq, Repr

/-- The numeric type names recognized by the `match` arm on lines 169-170. -/
def numericNames : List String :=
  ["i8", "i16", "i32", "u8", "u16", "u32", "i64", "i128", "isize",
   "u64", "u128", "usize", "f32", "f64"]

/-- The `let identity = match field.field_type ...` of lines 147-156:
for a path type, the dispatch key and the tokens; for any other type
shape, the `todo!` panic, modelled as an error carrying exactly the data
the panic message interpolates (the field's type). -/
def classify : RsType → Except RsType (String × RsPath)
  | .path p =>
    match p.get_ident with
    | some id => .ok (id, p)
    | none => .ok (p.lastSeg.ident, p)
  | t => .error t

/-- The `match identity.0.to_string().as_str()` of lines 164-179. -/
def selectGen (key : String) (tokens : RsPath) : GenChoice :=
  if key = "String" then .text
  else if key = "OsString" then .osText
  else if key = "char" then .chG
  else if key = "bool" then .blG
  else if numericNames.contains key then .numG tokens
  else .nestedG tokens

/-- One element of `field_builder_intializers` (lines 144-184): the type
is classified first (so the `todo!` fires even for ignored fields), then
either a fixed initializer (ignored field) or a boxed default generator. -/
inductive InitKind where
  | fixedInit (name : String)
  | genInit (name : String) (c : GenChoice)
deriving DecidableEq, Repr

/-- `field_builder_intializer` for one field. -/
def field_builder_intializer (f : FieldInfo) : Except RsType InitKind :=
  match classify f.field_type with
  | .error t => .error t
  | .ok identity =>
    if f.is_ignored then .ok (.fixedInit f.identifier)
    else .ok (.genInit f.identifier (selectGen identity.1 identity.2))

/-- `OutputTokenPartials` (lines 119-123), with each token stream
abstracted to the data it is built from. -/
structure OutputTokenPartials where
  field_setter_functions : List String
  field_builder_intializers : List InitKind
  field_declarations : List (String × Bool)
deriving DecidableEq, Repr

/-- Collecting the initializer iterator (lines 144-185): the first
`todo!` panic aborts the whole collection. -/
def collect_intializers : List FieldInfo → Except RsType (List InitKind)
  | [] => .ok []
  | f :: fs =>
    match field_builder_intializer f with
    | .error t => .error t
    | .ok i =>
      match collect_intializers fs with
      | .error t => .error t
      | .ok rest => .ok (i :: rest)

/-- `generate_output_tokens` (lines 125-211).  A `todo!` while building
the initializers aborts the whole expansion: the result is then an error
and no partial output exists. -/
def generate_output_tokens (fs : List FieldInfo) : Except RsType OutputTokenPartials :=
  let setters :=
    (fs.filter (fun f => !f.is_ignored)).map (fun f => "set_" ++ f.identifier)
  match collect_intializers fs with
  | .error t => .error t
  | .ok inits =>
    .ok ⟨setters, inits, fs.map (fun f => (f.identifier, f.is_ignored))⟩

/-! ### Runtime values -/

/-- A universe of runtime field values, enough to interpret the generated
default generators: strings, unsigned integers, signed integers, booleans,
characters, and nested struct instances (a struct value is its ordered
list of field values). -/
inductive Value where
  | vStr (s : String)
  | vNat (n : Nat)
  | vInt (z : Int)
  | vBool (b : Bool)
  | vChar (c : Char)
  | vRec (fields : List Value)

/-- The integer type names the generated `i as T` cast can target.  (The
numeric arm also admits `f32`/`f64`; no claim exercises a float value, so
the runtime layer models the integer casts.) -/
inductive IntTy where
  | i8 | i16 | i32 | i64 | i128 | isize
  | u8 | u16 | u32 | u64 | u128 | usize
deriving DecidableEq, Repr

/-- Wrap a `usize` value into a signed two's-complement `w`-bit integer,
the semantics of `i as iN`. -/
def wrapSigned (w : Nat) (i : Nat) : Int :=
  let r := i % 2 ^ w
  if r < 2 ^ (w - 1) then (r : Int) else (r : Int) - 2 ^ w

/-- The Rust cast `i as T` for `i : usize` (a truncating conversion;
`i as usize` is the identity). -/
def castUsize (t : IntTy) (i : Nat) : Value :=
  match t with
  | .u8 => .vNat (i % 2 ^ 8)
  | .u16 => .vNat (i % 2 ^ 16)
  | .u32 => .vNat (i % 2 ^ 32)
  | .u64 => .vNat (i % 2 ^ 64)
  | .u128 => .vNat (i % 2 ^ 128)
  | .usize => .vNat i
  | .i8 => .vInt (wrapSigned 8 i)
  | .i16 => .vInt (wrapSigned 16 i)
  | .i32 => .vInt (wrapSigned 32 i)
  | .i64 => .vInt (wrapSigned 64 i)
  | .i128 => .vInt (wrapSigned 128 i)
  | .isize => .vInt (wrapSigned 64 i)

/-- `std::char::from_digit(num, radix)`: `Some` digit character iff
`num < radix` (digits `0-9` then lowercase letters). -/
def charFromDigit (num radix : Nat) : Option Char :=
  if num < radix then
    if num < 10 then some (Char.ofNat (48 + num)) else some (Char.ofNat (87 + num))
  else none

/-- The generated `char` default `std::char::from_digit(i as u32, 10)
.unwrap_or('a')` (src/lib.rs line 167); `i as u32` truncates. -/
def char_default (i : Nat) : Char :=
  (charFromDigit (i % 2 ^ 32) 10).getD 'a'

/-! ### The generated builder's runtime state -/

/-- One stored field of the generated builder struct: a non-ignored field
holds `Box<dyn FnMut(usize) -> T>`, an ignored field holds the plain
value passed to the constructor. -/
inductive Slot where
  | gen (g : Nat → Value)
  | fixed (v : Value)

/-- The generated builder struct: the `index` counter plus one slot per
field, in schema order (src/lib.rs lines 42-45). -/
structure Builder where
  index : Nat
  slots : List Slot

/-- `take_index` (src/lib.rs lines 62-65): `self.index = self.index + 1;
self.index - 1`. -/
def Builder.take_index (b : Builder) : Nat × Builder :=
  let b2 : Builder := ⟨b.index + 1, b.slots⟩
  (b2.index - 1, b2)

/-- `with_index` (src/lib.rs lines 57-60): sets the counter
unconditionally. -/
def Builder.with_index (b : Builder) (n : Nat) : Builder :=
  ⟨n, b.slots⟩

/-- Evaluating one slot at the allocated index: an ignored field is
cloned from the builder, a generator field is invoked with the index. -/
def applySlot (i : Nat) : Slot → Value
  | .gen g => g i
  | .fixed v => v

/-- `build` (src/lib.rs lines 67-73): allocate one index, then produce
the instance field by field; the builder survives with only the counter
advanced. -/
def Builder.build (b : Builder) : List Value × Builder :=
  let r := b.take_index
  (r.2.slots.map (applySlot r.1), r.2)

/-- `build_vec` (src/lib.rs lines 75-77):
`repeat_with(|| self.build()).take(count).collect()`, i.e. `count`
sequential `build` calls threading the builder state. -/
def Builder.build_vec (b : Builder) (count : Nat) : List (List Value) × Builder :=
  match count with
  | 0 => ([], b)
  | n + 1 =>
    let r := b.build
    let rest := r.2.build_vec n
    (r.1 :: rest.1, rest.2)

/-- A generated setter `set_F` (src/lib.rs lines 126-142): overwrite
field `F`'s slot with the boxed replacement function, return the builder. -/
def Builder.set_field (b : Builder) (k : Nat) (f : Nat → Value) : Builder :=
  ⟨b.index, b.slots.set k (.gen f)⟩

/-! ### Default generators

The semantic category a non-ignored field's `GenChoice` lands in, with the
field schema of the nested type inlined for the `nestedG` case (in Rust
that schema is resolved by name to the sibling type's own derive; the
nested type's `tlayuda()` is called with no arguments, so a nested schema
carries only non-ignored fields). -/

mutual
inductive FKind where
  | text
  | osText
  | chK
  | blK
  | num (t : IntTy)
  | nested (inner : DSchema)

inductive DSchema where
  | nil
  | cons (name : String) (k : FKind) (rest : DSchema)
end

mutual
/-- The default generator closure for one non-ignored field
(src/lib.rs lines 164-179).  The nested arm is the literal
`|i| Inner::tlayuda().with_index(i).build()`: a fresh all-default builder
(counter 0), counter set to `i`, one `build`, inner builder dropped. -/
def defaultGen (nm : String) (k : FKind) : Nat → Value :=
  fun i =>
    match k with
    | .text => .vStr (nm ++ toString i)
    | .osText => .vStr (nm ++ toString i)
    | .chK => .vChar (char_default i)
    | .blK => .vBool false
    | .num t => castUsize t i
    | .nested inner =>
      .vRec (Builder.build (Builder.with_index ⟨0, defaultSlots inner⟩ i)).1

/-- The generator slots of an all-default builder, in schema order. -/
def defaultSlots : DSchema → List Slot
  | .nil => []
  | .cons nm k rest => Slot.gen (defaultGen nm k) :: defaultSlots rest
end

/-- `Inner::tlayuda()` for a type with no ignored fields: a fresh
all-default builder with counter 0. -/
def mkDefaultBuilder (s : DSchema) : Builder :=
  ⟨0, defaultSlots s⟩

/-! ### The builder factory for a top-level type -/

/-- A field of a top-level schema: name, semantic kind, ignore flag. -/
structure TField where
  name : String
  kind : FKind
  is_ignored : Bool

/-- The slots built by the generated `new` (src/lib.rs lines 48-53):
ignored fields consume the constructor arguments positionally, the rest
get their type-derived default generator.  (The generated constructor's
arity equals the number of ignored fields, so `args` never runs short.) -/
def mkSlots : List TField → List Value → List Slot
  | [], _ => []
  | f :: fs, args =>
    if f.is_ignored then
      match args with
      | [] => []
      | a :: rest => Slot.fixed a :: mkSlots fs rest
    else Slot.gen (defaultGen f.name f.kind) :: mkSlots fs args

/-- `TypeName::tlayuda(...)` (src/lib.rs lines 80-84), which forwards to
the generated `new`: counter 0, slots from the schema and the supplied
values for ignored fields. -/
def tlayuda (fields : List TField) (args : List Value) : Builder :=
  ⟨0, mkSlots fields args⟩

/-- The `DSchema` of a type whose fields are all non-ignored, as a
top-level field list. -/
def dschemaFields : DSchema → List TField
  | .nil => []
  | .cons nm k rest => ⟨nm, k, false⟩ :: dschemaFields rest

/-! ### Concrete schemas used by the scenario claims -/

/-- The `Widget` record of the spec's concrete scenario:
`{ name: String, count: u32, active: bool, id: char, tag: String (ignored) }`. -/
def widgetFields : List TField :=
  [⟨"name", .text, false⟩, ⟨"count", .num .u32, false⟩,
   ⟨"active", .blK, false⟩, ⟨"id", .chK, false⟩, ⟨"tag", .text, true⟩]

/-- `Widget::tlayuda(tag)`. -/
def widgetBuilder (tag : String) : Builder :=
  tlayuda widgetFields [.vStr tag]

/-- A nested record with a single `u32` field, for the nested-counter
claims: `Nested { x: u32 }`. -/
def nestedXSchema : DSchema :=
  .cons "x" (.num .u32) .nil

/-- An outer record `Outer { a: u32, inner: Nested }`. -/
def outerTwoFields : List TField :=
  [⟨"a", .num .u32, false⟩, ⟨"inner", .nested nestedXSchema, false⟩]

/-! ### Claim C1: the index allocator -/

/-- C1: a builder made by the factory starts with counter 0; `take_index`
returns the current counter and increments it by one, so every `build`
uses the current counter as the generation index and advances it by
exactly one (successive builds on a fresh builder run at 0, 1, 2, ...);
`with_index n` sets the counter to `n` unconditionally, and a `build`
right after it generates at index `n` and leaves the counter at `n + 1`. -/
theorem index_allocator_contract :
    (∀ (fields : List TField) (args : List Value), (tlayuda fields args).index = 0)
    ∧ (∀ b : Builder, b.take_index = (b.index, ⟨b.index + 1, b.slots⟩))
    ∧ (∀ b : Builder, b.build = (b.slots.map (applySlot b.index), ⟨b.index + 1, b.slots⟩))
    ∧ (∀ (b : Builder) (n : Nat), b.with_index n = ⟨n, b.slots⟩)
    ∧ (∀ (b : Builder) (n : Nat),
        (Builder.build (b.with_index n)).1 = b.slots.map (applySlot n)
        ∧ (Builder.build (b.with_index n)).2.index = n + 1)
    ∧ (∀ (fields : List TField) (args : List Value),
        ((tlayuda fields args).build).1 = (mkSlots fields args).map (applySlot 0)
        ∧ (((tlayuda fields args).build).2.build).1 = (mkSlots fields args).map (applySlot 1)
        ∧ ((((tlayuda fields args).build).2.build).2.build).1
            = (mkSlots fields args).map (applySlot 2)) := by
  refine ⟨fun _ _ => rfl, fun b => ?_, fun b => ?_, fun _ _ => rfl,
    fun b n => ⟨rfl, rfl⟩, fun fields args => ⟨rfl, rfl, rfl⟩⟩
  · simp [Builder.take_index]
  · simp [Builder.build, Builder.take_index]

/-! ### Claim C2: the Widget scenario -/

/-- C2: for `Widget { name: String, count: u32, active: bool, id: char,
tag: String (ignored) }`, `Widget::tlayuda("fixed-tag").build()` gives
`name="name0", count=0, active=false, id='0', tag="fixed-tag"`; a second
`build` on the same builder gives `name1, 1, false, '1', "fixed-tag"`;
and `build_vec(12)` on a fresh builder has 12 elements whose last one has
`id='a'` and `name="name11"`. -/
theorem widget_scenario :
    (Builder.build (widgetBuilder "fixed-tag")).1
      = [Value.vStr "name0", Value.vNat 0, Value.vBool false, Value.vChar '0',
         Value.vStr "fixed-tag"]
    ∧ (Builder.build (Builder.build (widgetBuilder "fixed-tag")).2).1
      = [Value.vStr "name1", Value.vNat 1, Value.vBool false, Value.vChar '1',
         Value.vStr "fixed-tag"]
    ∧ (Builder.build_vec (widgetBuilder "fixed-tag") 12).1.length = 12
    ∧ (Builder.build_vec (widgetBuilder "fixed-tag") 12).1.getLast?
      = some [Value.vStr "name11", Value.vNat 11, Value.vBool false, Value.vChar 'a',
              Value.vStr "fixed-tag"] :=
  ⟨rfl, rfl, rfl, rfl⟩

/-! ### Claim C3: `build_vec` equals sequential `build`s -/

/-- Unfolding lemma for `build_vec` on a successor count. -/
theorem build_vec_succ (b : Builder) (n : Nat) :
    b.build_vec (n + 1)
      = ((b.build).1 :: ((b.build).2.build_vec n).1, ((b.build).2.build_vec n).2) := rfl

/-- C3: `build_vec n` returns exactly `n` instances; the `j`-th one is
what `build` produces from the builder state with counter advanced by
`j`; the builder ends with its counter advanced by exactly `n` and the
slots untouched. -/
theorem build_vec_eq_sequential (b : Builder) (n : Nat) :
    (b.build_vec n).1.length = n
    ∧ (b.build_vec n).2 = ⟨b.index + n, b.slots⟩
    ∧ ∀ j, j < n →
        (b.build_vec n).1[j]? = some ((Builder.build ⟨b.index + j, b.slots⟩).1) := by
  induction n generalizing b with
  | zero =>
    exact ⟨rfl, rfl, fun j hj => absurd hj (Nat.not_lt_zero j)⟩
  | succ n ih =>
    obtain ⟨ihLen, ihState, ihGet⟩ := ih ⟨b.index + 1, b.slots⟩
    have hb2 : (b.build).2 = (⟨b.index + 1, b.slots⟩ : Builder) := rfl
    refine ⟨?_, ?_, ?_⟩
    · rw [build_vec_succ]
      simp only [List.length_cons]
      rw [hb2, ihLen]
    · rw [build_vec_succ]
      show ((b.build).2.build_vec n).2 = _
      rw [hb2, ihState]
      have harith : b.index + 1 + n = b.index + (n + 1) := by omega
      simp only [harith]
    · intro j hj
      rw [build_vec_succ]
      match j with
      | 0 =>
        simp only [List.getElem?_cons_zero, Nat.add_zero]
      | j + 1 =>
        simp only [List.getElem?_cons_succ]
        rw [hb2, ihGet j (by omega)]
        have harith : b.index + 1 + j = b.index + (j + 1) := by omega
        simp only [harith]

/-- C3 witness: the contract evaluated on a fresh `Widget` builder with
count 2. -/
theorem build_vec_eq_sequential_witness :
    ((widgetBuilder "t").build_vec 2).1.length = 2
    ∧ ((widgetBuilder "t").build_vec 2).2
        = ⟨(widgetBuilder "t").index + 2, (widgetBuilder "t").slots⟩
    ∧ ((widgetBuilder "t").build_vec 2).1[0]?
        = some ((Builder.build
            ⟨(widgetBuilder "t").index + 0, (widgetBuilder "t").slots⟩).1) :=
  ⟨(build_vec_eq_sequential (widgetBuilder "t") 2).1,
   (build_vec_eq_sequential (widgetBuilder "t") 2).2.1,
   (build_vec_eq_sequential (widgetBuilder "t") 2).2.2 0 (by norm_num)⟩

/-! ### Claim C4: the nested-record default generator -/

/-- A default builder for a schema with no ignored fields is exactly what
the factory returns when given no arguments. -/
theorem mkSlots_dschemaFields : (s : DSchema) → mkSlots (dschemaFields s) [] = defaultSlots s
  | .nil => rfl
  | .cons nm k rest => by
    simp [dschemaFields, mkSlots, defaultSlots, mkSlots_dschemaFields rest]

/-- C4: the default generator of a field whose type falls through to the
nested-builder rule, at outer index `i`, builds a fresh inner builder via
the inner type's factory (counter 0, no arguments), sets its counter to
`i`, performs one build (so all inner generators run at index `i`), and
uses the result; the outer builder's own state after a build is just its
counter advanced by one with its slots unchanged, independent of any
inner builder. -/
theorem nested_default_generator (inner : DSchema) (nm : String) (i : Nat) :
    defaultGen nm (FKind.nested inner) i
      = Value.vRec ((Builder.build ((mkDefaultBuilder inner).with_index i)).1)
    ∧ (mkDefaultBuilder inner).index = 0
    ∧ mkDefaultBuilder inner = tlayuda (dschemaFields inner) []
    ∧ ((mkDefaultBuilder inner).with_index i).index = i
    ∧ (Builder.build ((mkDefaultBuilder inner).with_index i)).1
        = (defaultSlots inner).map (applySlot i)
    ∧ (∀ b : Builder, (b.build).2 = ⟨b.index + 1, b.slots⟩) := by
  refine ⟨?_, rfl, ?_, rfl, rfl, fun b => rfl⟩
  · simp [defaultGen, mkDefaultBuilder, Builder.with_index]
  · simp [mkDefaultBuilder, tlayuda, mkSlots_dschemaFields]

/-! ### Claim C5: the nested builder's starting index -/

/-- C5 counterexample: with the outer counter at 2, the nested field of
`Outer { a: u32, inner: Nested { x: u32 } }` is built at index 2, not at
index 0 as the claim states. -/
theorem nested_counter_cex :
    (Builder.build ((tlayuda outerTwoFields []).with_index 2)).1[1]?
      = some (Value.vRec [Value.vNat 2])
    ∧ Value.vRec [Value.vNat 2] ≠ Value.vRec [Value.vNat 0] :=
  ⟨rfl, by simp⟩

/-- C5 amended: the nested builder's counter is seeded with the outer
build's index for each individual build, so with the outer counter at `n`
the nested field's values are generated at index `n`. -/
theorem nested_counter_amended (n : Nat) :
    (Builder.build ((tlayuda outerTwoFields []).with_index n)).1
      = [Value.vNat (n % 2 ^ 32), Value.vRec [Value.vNat (n % 2 ^ 32)]] := rfl

/-! ### Claim C6: the char default generator -/

/-- C6 counterexample: the claim says every index `i ≥ 10` yields the
fallback `'a'`, but the generated closure truncates `i as u32` first:
at `i = 2^32` it yields `'0'`. -/
theorem char_default_cex :
    10 ≤ 4294967296 ∧ char_default 4294967296 ≠ 'a'
    ∧ char_default 4294967296 = '0' :=
  ⟨by norm_num, by decide, by decide⟩

/-- C6 amended: the char default is the decimal digit character of `i`
for `0 ≤ i ≤ 9` and `'a'` for `10 ≤ i < 2^32`; for larger `i` the index
is first truncated modulo `2^32` (the `usize` to `u32` cast). -/
theorem char_default_amended (i : Nat) :
    (i ≤ 9 → char_default i = Char.ofNat (48 + i))
    ∧ (10 ≤ i → i < 2 ^ 32 → char_default i = 'a')
    ∧ char_default i = char_default (i % 2 ^ 32) := by
  refine ⟨fun h => ?_, fun h1 h2 => ?_, ?_⟩
  · have hm : i % 4294967296 = i := Nat.mod_eq_of_lt (by omega)
    simp [char_default, charFromDigit, hm, show i < 10 by omega]
  · have h2x : i < 4294967296 := by norm_num at h2; exact h2
    have hm : i % 4294967296 = i := Nat.mod_eq_of_lt h2x
    simp [char_default, charFromDigit, hm, Nat.not_lt.mpr h1]
  · simp [char_default, Nat.mod_mod_of_dvd]

/-- C6 witness for the amended statement: a digit index, a fallback
index, and a truncated index. -/
theorem char_default_amended_witness :
    char_default 7 = Char.ofNat 55 ∧ char_default 11 = 'a'
    ∧ char_default 4294967297 = char_default (4294967297 % 2 ^ 32) :=
  ⟨(char_default_amended 7).1 (by norm_num),
   (char_default_amended 11).2.1 (by norm_num) (by norm_num),
   (char_default_amended 4294967297).2.2⟩

/-! ### Claim C7: setter overrides -/

/-- C7: `set_F f` keeps the counter, stores `f` verbatim in field `F`'s
slot (full replacement, no memory of the old generator), leaves every
other slot untouched, and the next build computes `F` as `f` applied to
the same allocated index the old generator would have received, with all
other fields and the counter behaving as before. -/
theorem setter_full_replacement (b : Builder) (k : Nat) (f : Nat → Value)
    (hk : k < b.slots.length) :
    (b.set_field k f).index = b.index
    ∧ (b.set_field k f).slots[k]? = some (Slot.gen f)
    ∧ (∀ j, j ≠ k → (b.set_field k f).slots[j]? = b.slots[j]?)
    ∧ ((b.set_field k f).build).1[k]? = some (f b.index)
    ∧ (∀ j, j ≠ k → ((b.set_field k f).build).1[j]? = (b.build).1[j]?)
    ∧ ((b.set_field k f).build).2.index = b.index + 1
    ∧ ((b.set_field k f).build).1.length = b.slots.length := by
  refine ⟨rfl, List.getElem?_set_eq_of_lt _ hk,
    fun j hj => List.getElem?_set_ne (by omega), ?_, ?_, rfl, ?_⟩
  · show ((b.slots.set k (Slot.gen f)).map (applySlot b.index))[k]? = _
    rw [List.getElem?_map, List.getElem?_set_eq_of_lt _ hk]
    rfl
  · intro j hj
    show ((b.slots.set k (Slot.gen f)).map (applySlot b.index))[j]?
        = (b.slots.map (applySlot b.index))[j]?
    rw [List.getElem?_map, List.getElem?_map, List.getElem?_set_ne (by omega)]
  · show ((b.slots.set k (Slot.gen f)).map (applySlot b.index)).length = _
    simp

/-- C7 witness: overriding the `count` slot of a fresh `Widget` builder. -/
theorem setter_full_replacement_witness :
    ((widgetBuilder "t").set_field 1 (fun i => Value.vNat (100 + i))).slots[1]?
      = some (Slot.gen (fun i => Value.vNat (100 + i)))
    ∧ ((Builder.build
          ((widgetBuilder "t").set_field 1 (fun i => Value.vNat (100 + i)))).1)[1]?
      = some (Value.vNat (100 + (widgetBuilder "t").index)) :=
  ⟨(setter_full_replacement (widgetBuilder "t") 1
      (fun i => Value.vNat (100 + i)) (by decide)).2.1,
   (setter_full_replacement (widgetBuilder "t") 1
      (fun i => Value.vNat (100 + i)) (by decide)).2.2.2.1⟩

/-! ### Claim C8: unsupported field types -/

/-- C8 counterexample: the `todo!` diagnostic carries only the offending
field's declared type; two records whose offending fields differ only in
name produce the same diagnostic, so the diagnostic does not name the
offending field. -/
theorem unsupported_type_diag_cex :
    generate_output_tokens [⟨"x", RsType.tuple 2, false⟩] = Except.error (RsType.tuple 2)
    ∧ generate_output_tokens [⟨"y", RsType.tuple 2, false⟩] = Except.error (RsType.tuple 2)
    ∧ "x" ≠ "y" :=
  ⟨rfl, rfl, by decide⟩

/-- A field whose declared type is a path never makes the classifier
panic. -/
theorem fbi_ok_of_path (g : FieldInfo) (p : RsPath) (hp : g.field_type = RsType.path p) :
    ∃ r, field_builder_intializer g = Except.ok r := by
  unfold field_builder_intializer classify
  rw [hp]
  cases hgi : p.get_ident with
  | some id => cases g.is_ignored <;> simp [hgi]
  | none => cases g.is_ignored <;> simp [hgi]

/-- C8 amended: if any field's declared type is not a named-type path,
generation for the whole record aborts with no partial output, and the
diagnostic carries the offending field's declared type (not the field's
identifier). -/
theorem unsupported_type_amended (pre : List FieldInfo) (f : FieldInfo)
    (post : List FieldInfo)
    (hpre : ∀ g ∈ pre, ∃ p, g.field_type = RsType.path p)
    (hf : ∀ p, f.field_type ≠ RsType.path p) :
    generate_output_tokens (pre ++ f :: post) = Except.error f.field_type := by
  have herr : classify f.field_type = Except.error f.field_type := by
    cases hft : f.field_type with
    | path p => exact absurd hft (hf p)
    | tuple n => rfl
    | reference t => rfl
    | slice t => rfl
  have hfb : field_builder_intializer f = Except.error f.field_type := by
    unfold field_builder_intializer
    rw [herr]
  have hmain : ∀ pre2 : List FieldInfo, (∀ g ∈ pre2, ∃ p, g.field_type = RsType.path p) →
      collect_intializers (pre2 ++ f :: post) = Except.error f.field_type := by
    intro pre2
    induction pre2 with
    | nil =>
      intro _
      simp [collect_intializers, hfb]
    | cons g gs ih =>
      intro hpre2
      obtain ⟨p, hp⟩ := hpre2 g (List.mem_cons_self g gs)
      obtain ⟨r, hr⟩ := fbi_ok_of_path g p hp
      simp [collect_intializers, hr,
        ih (fun g2 hg2 => hpre2 g2 (List.mem_cons_of_mem g hg2))]
  unfold generate_output_tokens
  rw [hmain pre hpre]

/-- C8 witness: a supported field followed by a tuple-typed field aborts
with the tuple type as the diagnostic. -/
theorem unsupported_type_amended_witness :
    generate_output_tokens
      [⟨"a", RsType.path ⟨false, ⟨"u32", false⟩, []⟩, false⟩,
       ⟨"x", RsType.tuple 2, false⟩]
      = Except.error (RsType.tuple 2) :=
  unsupported_type_amended
    [⟨"a", RsType.path ⟨false, ⟨"u32", false⟩, []⟩, false⟩]
    ⟨"x", RsType.tuple 2, false⟩ []
    (by
      intro g hg
      rw [List.mem_singleton] at hg
      subst hg
      exact ⟨_, rfl⟩)
    (by intro p h; exact RsType.noConfusion h)

/-! ### Claim C9: schema extraction -/

/-- Written from the spec (section 4.1): exclusion comes exactly from a
zero-argument marker annotation recognized as the ignore marker; an
annotation that fails to parse, or any other annotation, never excludes. -/
def specIsIgnoreMarker (a : RsAttr) : Bool :=
  match a with
  | .parsed (.metaPath p) => p.is_ident "tlayuda_ignore"
  | _ => false

/-- Written from the spec (section 4.1): unnamed fields are silently
omitted; each named field keeps its declared type and gets its exclusion
flag from the marker test. -/
def spec_extract (fs : List RawField) : List FieldInfo :=
  fs.filterMap fun x =>
    x.ident.map fun nm => ⟨nm, x.ty, x.attrs.any specIsIgnoreMarker⟩

/-- C9: `get_fields` silently omits nameless fields and marks a named
field excluded iff some attached annotation parses as the bare
`tlayuda_ignore` path; other annotations are inert and an annotation
whose parse fails is swallowed as "not excluded". -/
theorem schema_extraction (fs : List RawField) :
    get_fields fs = spec_extract fs := by
  have hfun : isIgnoreAttr = specIsIgnoreMarker := by
    funext a
    cases a with
    | parsed m => cases m <;> rfl
    | unparseable => rfl
  induction fs with
  | nil => rfl
  | cons x xs ih =>
    cases hx : x.ident with
    | none =>
      simpa [get_fields, spec_extract, List.filter_cons, List.filterMap_cons, hx]
        using ih
    | some nm =>
      simpa [get_fields, spec_extract, List.filter_cons, List.filterMap_cons, hx, hfun]
        using ih

/-! ### Claim C10: multi-segment path dispatch -/

/-- C10: for a multi-segment path type, generator selection keys on the
final segment's identifier alone: `String`, `OsString`, `char`, `bool`
and the recognized numeric names get their built-in generator (the full
path is what gets interpolated into the numeric cast), and only a final
segment matching none of these falls through to the nested-builder rule,
which also receives the full path for its factory call. -/
theorem multi_segment_dispatch (nm : String) (p : RsPath) (hmulti : p.tail ≠ []) :
    field_builder_intializer ⟨nm, RsType.path p, false⟩
      = Except.ok (InitKind.genInit nm (selectGen p.lastSeg.ident p))
    ∧ (p.lastSeg.ident = "String" → selectGen p.lastSeg.ident p = GenChoice.text)
    ∧ (p.lastSeg.ident = "OsString" → selectGen p.lastSeg.ident p = GenChoice.osText)
    ∧ (p.lastSeg.ident = "char" → selectGen p.lastSeg.ident p = GenChoice.chG)
    ∧ (p.lastSeg.ident = "bool" → selectGen p.lastSeg.ident p = GenChoice.blG)
    ∧ (p.lastSeg.ident ∈ numericNames → selectGen p.lastSeg.ident p = GenChoice.numG p)
    ∧ (p.lastSeg.ident ∉ ["String", "OsString", "char", "bool"] →
        p.lastSeg.ident ∉ numericNames →
        selectGen p.lastSeg.ident p = GenChoice.nestedG p) := by
  have hgi : p.get_ident = none := by
    cases ht : p.tail with
    | nil => exact absurd ht hmulti
    | cons a l => simp [RsPath.get_ident, ht]
  refine ⟨?_, fun h => by simp [selectGen, h], fun h => by simp [selectGen, h],
    fun h => by simp [selectGen, h], fun h => by simp [selectGen, h],
    fun h => ?_, fun h1 h2 => ?_⟩
  · simp [field_builder_intializer, classify, hgi]
  · simp [numericNames] at h
    rcases h with h | h | h | h | h | h | h | h | h | h | h | h | h | h <;>
      simp [selectGen, numericNames, h]
  · have hS : p.lastSeg.ident ≠ "String" := fun he => h1 (by rw [he]; norm_num)
    have hO : p.lastSeg.ident ≠ "OsString" := fun he => h1 (by rw [he]; norm_num)
    have hC : p.lastSeg.ident ≠ "char" := fun he => h1 (by rw [he]; norm_num)
    have hB : p.lastSeg.ident ≠ "bool" := fun he => h1 (by rw [he]; norm_num)
    simp [selectGen, hS, hO, hC, hB, h2]

/-- C10 witness: `std::string::String` gets the text generator;
`my::Thing` falls through to the nested-builder rule with the full path. -/
theorem multi_segment_dispatch_witness :
    field_builder_intializer
      ⟨"fld", RsType.path ⟨false, ⟨"std", false⟩, [⟨"string", false⟩, ⟨"String", false⟩]⟩,
       false⟩
      = Except.ok (InitKind.genInit "fld"
          (selectGen
            (RsPath.lastSeg
              ⟨false, ⟨"std", false⟩, [⟨"string", false⟩, ⟨"String", false⟩]⟩).ident
            ⟨false, ⟨"std", false⟩, [⟨"string", false⟩, ⟨"String", false⟩]⟩))
    ∧ selectGen
        (RsPath.lastSeg
          ⟨false, ⟨"std", false⟩, [⟨"string", false⟩, ⟨"String", false⟩]⟩).ident
        ⟨false, ⟨"std", false⟩, [⟨"string", false⟩, ⟨"String", false⟩]⟩
      = GenChoice.text
    ∧ selectGen (RsPath.lastSeg ⟨false, ⟨"my", false⟩, [⟨"Thing", false⟩]⟩).ident
        ⟨false, ⟨"my", false⟩, [⟨"Thing", false⟩]⟩
      = GenChoice.nestedG ⟨false, ⟨"my", false⟩, [⟨"Thing", false⟩]⟩ :=
  ⟨(multi_segment_dispatch "fld"
      ⟨false, ⟨"std", false⟩, [⟨"string", false⟩, ⟨"String", false⟩]⟩ (by simp)).1,
   (multi_segment_dispatch "fld"
      ⟨false, ⟨"std", false⟩, [⟨"string", false⟩, ⟨"String", false⟩]⟩ (by simp)).2.1 rfl,
   (multi_segment_dispatch "fld"
      ⟨false, ⟨"my", false⟩, [⟨"Thing", false⟩]⟩ (by simp)).2.2.2.2.2.2
      (by decide) (by decide)⟩

end Tlayuda
